import Mathlib

/-!
Verification development for the GayaCode process execution-and-monitoring
orchestrator.

The development shallowly embeds the JavaScript source:
* ProcessMonitoringStrategy.monitor (src/monitoring/MonitoringStrategies.js) as a
  recursive function over an explicit list of sampling-tick events,
* EnvironmentalAnalyzer.executeAndMonitor (the refactored analyzer) as a function
  over an explicit description of the asynchronous events of one execution
  (spawn outcome, first settled child-process event, monitor tick trace),
* AnalyzerConfig and its validate method (src/core/interfaces/Types.js),
* EcoScoreCalculationStrategy (src/calculations/CalculationStrategies.js).

JavaScript numbers are modelled as rationals; error-message strings built by
template interpolation are modelled as tagged values carrying the interpolated
data. Side effects that the claims observe (whether the monitor was started,
whether its promise was awaited, whether a kill signal was sent) are recorded
in an explicit trace record returned next to the result.
-/

/-- One point of the timeline, as built by new TimelinePoint(timeSeconds, cpu, memoryMB)
in the monitor loop. -/
structure TimelinePoint where
  timeSeconds : ℚ
  cpu : ℚ
  memoryMB : ℚ
deriving Repr, DecidableEq

/-- Outcome of one pidusage(pid) call at a monitoring tick: either a stats object
with cpu percent and memory in bytes, or a rejection whose code field is a string
(ESRCH meaning the process no longer exists). -/
inductive SampleResult where
  | ok (cpu : ℚ) (memoryBytes : ℚ)
  | err (code : String)
deriving Repr, DecidableEq

/-- One firing of the setInterval callback in the monitor loop: the elapsed time
Date.now() - startTime observed at the tick, and the result of the sampling call. -/
structure Tick where
  elapsed : ℚ
  sample : SampleResult
deriving Repr, DecidableEq

/-- The object the monitor promise resolves with:
\x7b timeline, avgCpuUsage, avgMemoryUsage, samples \x7d. -/
structure MonitorAggregate where
  timeline : List TimelinePoint
  avgCpuUsage : ℚ
  avgMemoryUsage : ℚ
  samples : ℕ
deriving Repr, DecidableEq

/-- One invocation of the onData callback: the tick at which it ran and the
(stats.cpu, memoryMB) arguments it received. -/
structure OnDataCall where
  elapsed : ℚ
  cpu : ℚ
  memoryMB : ℚ
deriving Repr, DecidableEq

/-- The mutable local state of one monitor run: timeline, totalCpu, totalMemory,
samples, plus the record of onData callback invocations (the callback is the only
channel through which the caller observes individual samples). -/
structure MonState where
  timeline : List TimelinePoint
  totalCpu : ℚ
  totalMemory : ℚ
  samples : ℕ
  onDataCalls : List OnDataCall
deriving Repr, DecidableEq

/-- State at the top of ProcessMonitoringStrategy.monitor, before the first tick. -/
def MonState.init : MonState :=
  { timeline := [], totalCpu := 0, totalMemory := 0, samples := 0, onDataCalls := [] }

/-- The aggregate the monitor resolves with, from the current loop state: averages
are running sum over count, guarded to 0 when no sample was collected. -/
def resolveAggregate (s : MonState) : MonitorAggregate :=
  { timeline := s.timeline
    avgCpuUsage := if s.samples > 0 then s.totalCpu / (s.samples : ℚ) else 0
    avgMemoryUsage := if s.samples > 0 then s.totalMemory / (s.samples : ℚ) else 0
    samples := s.samples }

/-- ProcessMonitoringStrategy.monitor, embedded as a fold over the tick trace.
At each tick: if elapsed ≥ maxDuration, clear the interval and resolve the
aggregate; otherwise sample the process. A successful sample appends a
TimelinePoint (time in seconds, cpu percent, memory converted to MB), updates the
running totals and sample count, and invokes the onData callback. A rejection
with code ESRCH resolves the aggregate collected so far; any other rejection
clears the interval and rejects the monitor promise with that error
(Except.error). The result is none when the supplied trace is exhausted before
the promise settles (the real loop would still be ticking). -/
def monitorRun (maxDuration : ℚ) : List Tick → MonState →
    Option (Except String MonitorAggregate × MonState)
  | [], _ => none
  | t :: rest, s =>
    if t.elapsed ≥ maxDuration then
      some (Except.ok (resolveAggregate s), s)
    else
      match t.sample with
      | SampleResult.ok cpu memoryBytes =>
        let memoryMB := memoryBytes / (1024 * 1024)
        let point : TimelinePoint :=
          { timeSeconds := t.elapsed / 1000, cpu := cpu, memoryMB := memoryMB }
        monitorRun maxDuration rest
          { timeline := s.timeline ++ [point]
            totalCpu := s.totalCpu + cpu
            totalMemory := s.totalMemory + memoryMB
            samples := s.samples + 1
            onDataCalls := s.onDataCalls ++ [{ elapsed := t.elapsed, cpu := cpu, memoryMB := memoryMB }] }
      | SampleResult.err code =>
        if code = "ESRCH" then
          some (Except.ok (resolveAggregate s), s)
        else
          some (Except.error code, s)

/-- The peak accumulators maintained by the onData closure in executeAndMonitor
(peakCpuUsage = Math.max over the cpu arguments seen so far, starting at 0),
restricted to the callback invocations that ran before the given cutoff time.
The cutoff models which callbacks had already run when a process event settled. -/
def peakCpuBefore (calls : List OnDataCall) (cutoff : ℚ) : ℚ :=
  (calls.filter (fun c => c.elapsed < cutoff)).foldl (fun acc c => max acc c.cpu) 0

/-- Same as peakCpuBefore for the peakMemoryUsage accumulator. -/
def peakMemBefore (calls : List OnDataCall) (cutoff : ℚ) : ℚ :=
  (calls.filter (fun c => c.elapsed < cutoff)).foldl (fun acc c => max acc c.memoryMB) 0

/-- Final value of the peakCpuUsage accumulator once the monitor has settled
(all onData invocations have run). -/
def peakCpuFinal (calls : List OnDataCall) : ℚ :=
  calls.foldl (fun acc c => max acc c.cpu) 0

/-- Final value of the peakMemoryUsage accumulator once the monitor has settled. -/
def peakMemFinal (calls : List OnDataCall) : ℚ :=
  calls.foldl (fun acc c => max acc c.memoryMB) 0

/-- The configuration state built by the AnalyzerConfig constructor
(src/core/interfaces/Types.js). -/
structure AnalyzerConfigState where
  emissionFactor : ℚ
  cpuPowerCoefficient : ℚ
  memoryPowerCoefficient : ℚ
  maxExecutionTime : ℚ
  monitoringInterval : ℚ
deriving Repr, DecidableEq

/-- Outcome of the synchronous spawn call in executeAndMonitor: either it throws
(caught by the surrounding try, at the given elapsed time) or it returns a child
process handle. -/
inductive SpawnOutcome where
  | threw (elapsed : ℚ) (msg : String)
  | started
deriving Repr, DecidableEq

/-- The first event emitted by the child process: the close event with
(code, signal) — in Node exactly one of the two is non-null, a present signal
string being truthy — or the error event with a message. -/
inductive ProcEvent where
  | closed (exitCode : Option Int) (signal : Option String)
  | errored (msg : String)
deriving Repr, DecidableEq

/-- The asynchronous-event description of one executeAndMonitor call: the spawn
outcome, the first child-process event with the elapsed time at which it fires
(none when the process never settles an event), and the monitor tick trace. -/
structure ExecInput where
  spawn : SpawnOutcome
  procEvent : Option (ℚ × ProcEvent)
  monitorTrace : List Tick
deriving Repr, DecidableEq

/-- Error values of executeAndMonitor results. The source builds message strings
by template interpolation; the interpolated data is carried as fields. -/
inductive ExecError where
  | failedToStart (msg : String)
  | terminatedBySignal (signal : String)
  | processError (msg : String)
  | timedOut (ms : ℚ)
deriving Repr, DecidableEq

/-- The plain object executeAndMonitor resolves with. Fields that a given branch
does not set are modelled as none (undefined in the source). The exitCode field
holds the (possibly null) code argument of the close event. -/
structure ExecResult where
  success : Bool
  executionTime : ℚ
  error : Option ExecError := none
  peakCpuUsage : Option ℚ := none
  peakMemoryUsage : Option ℚ := none
  exitCode : Option (Option Int) := none
  avgCpuUsage : Option ℚ := none
  avgMemoryUsage : Option ℚ := none
  samples : Option ℕ := none
  timeline : Option (List TimelinePoint) := none
deriving Repr, DecidableEq

/-- Observable side effects of one executeAndMonitor call: whether
this.monitoringStrategy.monitor was invoked, whether the monitoring promise was
awaited before returning, and whether childProcess.kill was invoked. -/
structure ExecTrace where
  monitorStarted : Bool
  monitorAwaited : Bool
  killSignalSent : Bool
deriving Repr, DecidableEq

/-- EnvironmentalAnalyzer.executeAndMonitor, embedded over an explicit event
description. If spawn throws, the catch block returns the failed-to-start
result; the monitor was never invoked. Otherwise the monitor is started, and
Promise.race resolves with whichever of the process promise (settled by the
first close or error event) and the timeout promise (settled at
maxExecutionTime) fires first. A close event with a truthy signal, an error
event, or the timeout each return a failure result at once, without awaiting
the monitor; the timeout branch additionally sends SIGTERM (the handle is not
yet killed there) and records executionTime equal to maxExecutionTime. Only the
close-without-signal branch awaits the monitoring promise: on resolution it
spreads the aggregate into the result; on rejection the catch substitutes the
peak accumulators for the averages, samples := 1 and an empty timeline. The
whole call returns none only if the awaited monitor trace never settles. -/
def executeAndMonitor (cfg : AnalyzerConfigState) (inp : ExecInput) :
    Option (ExecResult × ExecTrace) :=
  match inp.spawn with
  | SpawnOutcome.threw elapsed msg =>
      some ({ success := false, error := some (ExecError.failedToStart msg),
              executionTime := elapsed },
            { monitorStarted := false, monitorAwaited := false, killSignalSent := false })
  | SpawnOutcome.started =>
      match inp.procEvent with
      | some (t, ev) =>
          if t < cfg.maxExecutionTime then
            match ev with
            | ProcEvent.closed _ (some sig) =>
                some ({ success := false, error := some (ExecError.terminatedBySignal sig),
                        executionTime := t },
                      { monitorStarted := true, monitorAwaited := false, killSignalSent := false })
            | ProcEvent.closed code none =>
                match monitorRun cfg.maxExecutionTime inp.monitorTrace MonState.init with
                | none => none
                | some (Except.ok agg, st) =>
                    some ({ success := true, executionTime := t,
                            peakCpuUsage := some (peakCpuBefore st.onDataCalls t),
                            peakMemoryUsage := some (peakMemBefore st.onDataCalls t),
                            exitCode := some code,
                            avgCpuUsage := some agg.avgCpuUsage,
                            avgMemoryUsage := some agg.avgMemoryUsage,
                            samples := some agg.samples,
                            timeline := some agg.timeline },
                          { monitorStarted := true, monitorAwaited := true, killSignalSent := false })
                | some (Except.error _, st) =>
                    some ({ success := true, executionTime := t,
                            peakCpuUsage := some (peakCpuBefore st.onDataCalls t),
                            peakMemoryUsage := some (peakMemBefore st.onDataCalls t),
                            exitCode := some code,
                            avgCpuUsage := some (peakCpuFinal st.onDataCalls),
                            avgMemoryUsage := some (peakMemFinal st.onDataCalls),
                            samples := some 1,
                            timeline := some [] },
                          { monitorStarted := true, monitorAwaited := true, killSignalSent := false })
            | ProcEvent.errored msg =>
                some ({ success := false, error := some (ExecError.processError msg),
                        executionTime := t },
                      { monitorStarted := true, monitorAwaited := false, killSignalSent := false })
          else
            some ({ success := false, error := some (ExecError.timedOut cfg.maxExecutionTime),
                    executionTime := cfg.maxExecutionTime },
                  { monitorStarted := true, monitorAwaited := false, killSignalSent := true })
      | none =>
          some ({ success := false, error := some (ExecError.timedOut cfg.maxExecutionTime),
                  executionTime := cfg.maxExecutionTime },
                { monitorStarted := true, monitorAwaited := false, killSignalSent := true })

/-- AnalyzerConfig.validate (src/core/interfaces/Types.js): throws (Except.error
with the message) at the first violated positivity check, in source order;
otherwise returns true. -/
def AnalyzerConfig.validate (c : AnalyzerConfigState) : Except String Bool :=
  if c.emissionFactor ≤ 0 then Except.error "Emission factor must be positive"
  else if c.maxExecutionTime ≤ 0 then Except.error "Max execution time must be positive"
  else if c.monitoringInterval ≤ 0 then Except.error "Monitoring interval must be positive"
  else Except.ok true

/-- The request invariant as the spec words it (section 3, ExecutionRequest):
sampling period > 0 and strictly less than maximum runtime; maximum runtime > 0.
Stated from the spec, to be compared with AnalyzerConfig.validate. -/
def specRequestInvariant (c : AnalyzerConfigState) : Prop :=
  0 < c.monitoringInterval ∧ c.monitoringInterval < c.maxExecutionTime ∧
    0 < c.maxExecutionTime

instance (c : AnalyzerConfigState) : Decidable (specRequestInvariant c) := by
  unfold specRequestInvariant; infer_instance

/-- Grade record returned by EcoScoreCalculationStrategy.getGrade. -/
structure Grade where
  letter : String
  color : String
deriving Repr, DecidableEq

/-- The EcoScore object (overall, grade, breakdown as its three components). -/
structure EcoScoreResult where
  overall : ℚ
  grade : Grade
  energy : ℚ
  time : ℚ
  cpu : ℚ
deriving Repr, DecidableEq

namespace EcoScoreCalculationStrategy

/-- calculateEnergyScore: step ladder on energy in kWh, lower energy scores higher. -/
def calculateEnergyScore (energyKwh : ℚ) : ℚ :=
  if energyKwh ≤ 0.00001 then 100
  else if energyKwh ≤ 0.0001 then 90
  else if energyKwh ≤ 0.001 then 80
  else if energyKwh ≤ 0.01 then 60
  else if energyKwh ≤ 0.1 then 40
  else 20

/-- calculateTimeScore: step ladder on execution time in ms. -/
def calculateTimeScore (executionTime : ℚ) : ℚ :=
  if executionTime ≤ 100 then 100
  else if executionTime ≤ 500 then 90
  else if executionTime ≤ 1000 then 80
  else if executionTime ≤ 5000 then 60
  else if executionTime ≤ 10000 then 40
  else 20

/-- calculateCpuScore: 100 minus the mean of average and peak cpu, clamped to
[0, 100] by Math.max(0, Math.min(100, -)). -/
def calculateCpuScore (avgCpu peakCpu : ℚ) : ℚ :=
  max 0 (min 100 (100 - (avgCpu + peakCpu) / 2))

/-- getGrade: letter grade ladder on the overall score. -/
def getGrade (score : ℚ) : Grade :=
  if score ≥ 90 then { letter := "A+", color := "#22c55e" }
  else if score ≥ 80 then { letter := "A", color := "#16a34a" }
  else if score ≥ 70 then { letter := "B+", color := "#65a30d" }
  else if score ≥ 60 then { letter := "B", color := "#ca8a04" }
  else if score ≥ 50 then { letter := "C+", color := "#ea580c" }
  else if score ≥ 40 then { letter := "C", color := "#dc2626" }
  else { letter := "F", color := "#991b1b" }

/-- EcoScoreCalculationStrategy.calculate on the data it reads: metrics.energyKwh,
metrics.avgCpuUsage, metrics.peakCpuUsage and executionTime. Overall is the
weighted average 0.4 energy + 0.3 time + 0.3 cpu. -/
def calculate (energyKwh avgCpu peakCpu executionTime : ℚ) : EcoScoreResult :=
  let energyScore := calculateEnergyScore energyKwh
  let timeScore := calculateTimeScore executionTime
  let cpuScore := calculateCpuScore avgCpu peakCpu
  let overall := energyScore * 0.4 + timeScore * 0.3 + cpuScore * 0.3
  { overall := overall
    grade := getGrade overall
    energy := energyScore
    time := timeScore
    cpu := cpuScore }

end EcoScoreCalculationStrategy

/-- Phase of the child-process handle: still running, or already exited. -/
inductive ProcPhase where
  | running
  | exited (code : Option Int)
deriving Repr, DecidableEq

/-- The child-process handle as the orchestrator sees it: its phase and the
killed flag (set once a termination signal has been delivered through kill). -/
structure ProcHandle where
  phase : ProcPhase
  killed : Bool
deriving Repr, DecidableEq

/-- Modelled from the spec: the Process Runner terminate() operation (section
4.1). The runner here is the Node child_process handle, an external collaborator
whose kill method is not part of the repository sources; per the spec it sends a
graceful termination request and is idempotent — calling it after the process has
already exited is a no-op, never an error (a total function, no error outcome). -/
def ProcHandle.terminate (h : ProcHandle) : ProcHandle :=
  match h.phase with
  | ProcPhase.running => { h with killed := true }
  | ProcPhase.exited _ => h

/-- The guarded kill call sites (executeAndMonitor timeout handler and the
analyzeScript catch block): if (childProcess && !childProcess.killed)
childProcess.kill(SIGTERM). Returns the handle after the call and whether a
signal was actually sent. -/
def guardedKill (h : ProcHandle) : ProcHandle × Bool :=
  if !h.killed then (h.terminate, true) else (h, false)

/-- Promise settlement: a promise settles with the first resolve call; every
later resolve or reject call on the same promise is ignored. The list holds the
resolve arguments in the order the calls run. -/
def promiseSettle (calls : List ExecResult) : Option ExecResult :=
  calls.foldl (fun s v => match s with | none => some v | some w => some w) none

/-- Loop invariant of the monitor state: the running totals are the sums over
the timeline, the sample counter is the timeline length, and the onData
callback ran once per appended point. -/
def monInv (s : MonState) : Prop :=
  s.totalCpu = (s.timeline.map TimelinePoint.cpu).sum ∧
  s.totalMemory = (s.timeline.map TimelinePoint.memoryMB).sum ∧
  s.samples = s.timeline.length ∧
  s.onDataCalls.length = s.timeline.length

theorem monInv_init : monInv MonState.init := by
  simp [monInv, MonState.init]

/-- Every resolving monitor run preserves the loop invariant and resolves with
exactly the aggregate of its final state. -/
theorem monitorRun_ok_inv (maxD : ℚ) :
    ∀ (trace : List Tick) (s : MonState) (agg : MonitorAggregate) (st : MonState),
      monInv s → monitorRun maxD trace s = some (Except.ok agg, st) →
      monInv st ∧ agg = resolveAggregate st := by
  intro trace
  induction trace with
  | nil =>
      intro s agg st _ h
      simp [monitorRun] at h
  | cons t rest ih =>
      intro s agg st hinv h
      simp only [monitorRun] at h
      split at h
      · simp only [Option.some.injEq, Prod.mk.injEq, Except.ok.injEq] at h
        obtain ⟨hagg, hst⟩ := h
        subst hst
        exact ⟨hinv, hagg.symm⟩
      · split at h
        · refine ih _ agg st ?_ h
          obtain ⟨h1, h2, h3, h4⟩ := hinv
          refine ⟨?_, ?_, ?_, ?_⟩ <;>
            simp [h1, h2, h3, h4]
        · split at h
          · simp only [Option.some.injEq, Prod.mk.injEq, Except.ok.injEq] at h
            obtain ⟨hagg, hst⟩ := h
            subst hst
            exact ⟨hinv, hagg.symm⟩
          · simp at h

/-- C3 counterexample: a sampling error with code EPERM (not ESRCH) at a tick
before the deadline makes the monitor promise reject with that error; the
partial aggregate is not returned as a normal result. -/
theorem C3_counterexample :
    monitorRun 1000 [{ elapsed := 10, sample := SampleResult.err "EPERM" }] MonState.init =
      some (Except.error "EPERM", MonState.init) := by
  simp only [monitorRun]
  rw [if_neg (by norm_num : ¬((10 : ℚ) ≥ 1000)), if_neg (by decide : ¬("EPERM" = "ESRCH"))]

/-- C3 (amended): a sampling error other than ESRCH ends the polling loop at
once, but the monitor surfaces it as a rejection (Except.error) carrying the
sampling error, discarding the partial aggregate, rather than resolving with a
normal result. -/
theorem C3_nonEsrch_error_rejects (maxD : ℚ) (t : Tick) (rest : List Tick)
    (s : MonState) (c : String)
    (hlt : t.elapsed < maxD) (hs : t.sample = SampleResult.err c)
    (hne : c ≠ "ESRCH") :
    monitorRun maxD (t :: rest) s = some (Except.error c, s) := by
  simp only [monitorRun, hs]
  rw [if_neg (not_le.mpr hlt), if_neg hne]

/-- C3 witness: the amended statement at a concrete input. -/
theorem C3_witness :
    monitorRun 500 [{ elapsed := 20, sample := SampleResult.err "EACCES" }] MonState.init =
      some (Except.error "EACCES", MonState.init) :=
  C3_nonEsrch_error_rejects 500 _ [] MonState.init "EACCES"
    (by norm_num) rfl (by decide)

/-- C6: every monitoring run that resolves with at least one sample reports an
avgCpuUsage equal to the arithmetic mean of the cpu values of the points
appended to the timeline (exact over the rationals, hence within any
floating-point accumulation tolerance). -/
theorem C6_avgCpu_is_mean (maxD : ℚ) (trace : List Tick)
    (agg : MonitorAggregate) (st : MonState)
    (hrun : monitorRun maxD trace MonState.init = some (Except.ok agg, st))
    (hpos : 0 < agg.samples) :
    agg.avgCpuUsage =
      (agg.timeline.map TimelinePoint.cpu).sum / (agg.timeline.length : ℚ) := by
  obtain ⟨hinv, hagg⟩ :=
    monitorRun_ok_inv maxD trace MonState.init agg st monInv_init hrun
  obtain ⟨h1, _, h3, _⟩ := hinv
  subst hagg
  simp only [resolveAggregate] at hpos ⊢
  rw [if_pos hpos, h1, h3]

/-- C6 witness: two samples with cpu 30 and 50; the reported average is 40,
the mean of the timeline cpu values. -/
theorem C6_witness :
    monitorRun 1000
      [{ elapsed := 10, sample := SampleResult.ok 30 (1024 * 1024) },
       { elapsed := 20, sample := SampleResult.ok 50 (2 * (1024 * 1024)) },
       { elapsed := 30, sample := SampleResult.err "ESRCH" }] MonState.init =
      some (Except.ok
        { timeline := [{ timeSeconds := 1/100, cpu := 30, memoryMB := 1 },
                       { timeSeconds := 1/50, cpu := 50, memoryMB := 2 }],
          avgCpuUsage := 40, avgMemoryUsage := 3/2, samples := 2 },
        { timeline := [{ timeSeconds := 1/100, cpu := 30, memoryMB := 1 },
                       { timeSeconds := 1/50, cpu := 50, memoryMB := 2 }],
          totalCpu := 80, totalMemory := 3, samples := 2,
          onDataCalls := [{ elapsed := 10, cpu := 30, memoryMB := 1 },
                          { elapsed := 20, cpu := 50, memoryMB := 2 }] }) ∧
    (40 : ℚ) =
      (([{ timeSeconds := 1/100, cpu := 30, memoryMB := 1 },
         { timeSeconds := 1/50, cpu := 50, memoryMB := 2 }] : List TimelinePoint).map
           TimelinePoint.cpu).sum /
        (([{ timeSeconds := 1/100, cpu := 30, memoryMB := 1 },
           { timeSeconds := 1/50, cpu := 50, memoryMB := 2 }] : List TimelinePoint).length : ℚ) := by
  refine ⟨?_, ?_⟩
  · simp [monitorRun, MonState.init, resolveAggregate]
    norm_num
  · have h : monitorRun 1000
        [{ elapsed := 10, sample := SampleResult.ok 30 (1024 * 1024) },
         { elapsed := 20, sample := SampleResult.ok 50 (2 * (1024 * 1024)) },
         { elapsed := 30, sample := SampleResult.err "ESRCH" }] MonState.init =
        some (Except.ok
          { timeline := [{ timeSeconds := 1/100, cpu := 30, memoryMB := 1 },
                         { timeSeconds := 1/50, cpu := 50, memoryMB := 2 }],
            avgCpuUsage := 40, avgMemoryUsage := 3/2, samples := 2 },
          { timeline := [{ timeSeconds := 1/100, cpu := 30, memoryMB := 1 },
                         { timeSeconds := 1/50, cpu := 50, memoryMB := 2 }],
            totalCpu := 80, totalMemory := 3, samples := 2,
            onDataCalls := [{ elapsed := 10, cpu := 30, memoryMB := 1 },
                            { elapsed := 20, cpu := 50, memoryMB := 2 }] }) := by
      simp [monitorRun, MonState.init, resolveAggregate]
      norm_num
    have := C6_avgCpu_is_mean 1000 _ _ _ h (by norm_num)
    simpa using this

/-- C7: a monitoring run that resolves with zero samples reports zero averages
and an empty timeline, and the peak accumulators fed by the onData callback are
still zero; the zero-sample guard avoids any division by zero. -/
theorem C7_zero_samples_defaults (maxD : ℚ) (trace : List Tick)
    (agg : MonitorAggregate) (st : MonState)
    (hrun : monitorRun maxD trace MonState.init = some (Except.ok agg, st))
    (h0 : agg.samples = 0) :
    agg.avgCpuUsage = 0 ∧ agg.avgMemoryUsage = 0 ∧ agg.timeline = [] ∧
      peakCpuFinal st.onDataCalls = 0 ∧ peakMemFinal st.onDataCalls = 0 := by
  obtain ⟨hinv, hagg⟩ :=
    monitorRun_ok_inv maxD trace MonState.init agg st monInv_init hrun
  obtain ⟨_, _, h3, h4⟩ := hinv
  subst hagg
  simp only [resolveAggregate] at h0 ⊢
  have htl : st.timeline = [] := by
    rw [h0] at h3
    exact List.length_eq_zero.mp h3.symm
  have hcalls : st.onDataCalls = [] := by
    rw [htl] at h4
    simpa using h4
  rw [h0, htl, hcalls]
  norm_num [peakCpuFinal, peakMemFinal]

/-- C7 witness: the process disappears (ESRCH) at the very first tick; the
aggregate has zero samples, zero averages, empty timeline and zero peaks. -/
theorem C7_witness :
    monitorRun 1000 [{ elapsed := 5, sample := SampleResult.err "ESRCH" }] MonState.init =
      some (Except.ok
        { timeline := [], avgCpuUsage := 0, avgMemoryUsage := 0, samples := 0 },
        MonState.init) ∧
    (0 : ℚ) = 0 ∧ (0 : ℚ) = 0 ∧ ([] : List TimelinePoint) = [] ∧
      peakCpuFinal MonState.init.onDataCalls = 0 ∧
      peakMemFinal MonState.init.onDataCalls = 0 := by
  have h : monitorRun 1000 [{ elapsed := 5, sample := SampleResult.err "ESRCH" }] MonState.init =
      some (Except.ok
        { timeline := [], avgCpuUsage := 0, avgMemoryUsage := 0, samples := 0 },
        MonState.init) := by
    norm_num [monitorRun, MonState.init, resolveAggregate]
  have h2 := C7_zero_samples_defaults 1000 _ _ _ h rfl
  exact ⟨h, rfl, rfl, rfl, h2.2.2.2.1, h2.2.2.2.2⟩

/-- C2: whenever the deadline timer fires strictly before the first child
process event (close or error), executeAndMonitor returns the timeout outcome —
a failure result carrying the timed-out error, never a completion — with
executionTime equal to exactly the configured maximum runtime, regardless of
the late process event. -/
theorem C2_deadline_first_yields_timeout (cfg : AnalyzerConfigState)
    (inp : ExecInput) (t : ℚ) (ev : ProcEvent)
    (hspawn : inp.spawn = SpawnOutcome.started)
    (hev : inp.procEvent = some (t, ev))
    (hlate : cfg.maxExecutionTime < t) :
    executeAndMonitor cfg inp =
      some ({ success := false,
              error := some (ExecError.timedOut cfg.maxExecutionTime),
              executionTime := cfg.maxExecutionTime },
            { monitorStarted := true, monitorAwaited := false,
              killSignalSent := true }) := by
  simp only [executeAndMonitor, hspawn, hev]
  rw [if_neg (not_lt.mpr (le_of_lt hlate))]

/-- C2 witness: deadline 100 ms, the close event (exit code 0) arrives at
250 ms; the outcome is the timeout failure with executionTime 100. -/
theorem C2_witness :
    executeAndMonitor
      { emissionFactor := 400, cpuPowerCoefficient := 0.00008,
        memoryPowerCoefficient := 0.0000003, maxExecutionTime := 100,
        monitoringInterval := 50 }
      { spawn := SpawnOutcome.started,
        procEvent := some (250, ProcEvent.closed (some 0) none),
        monitorTrace := [] } =
      some ({ success := false, error := some (ExecError.timedOut 100),
              executionTime := 100 },
            { monitorStarted := true, monitorAwaited := false,
              killSignalSent := true }) :=
  C2_deadline_first_yields_timeout _ _ 250 (ProcEvent.closed (some 0) none)
    rfl rfl (by norm_num)

/-- C1 counterexample: when the deadline fires first (close event at 300 ms,
deadline 100 ms), executeAndMonitor returns with the monitor started but not
awaited — the monitoring loop was neither stopped nor drained before the call
returned, so a monitoring task outlives the call. -/
theorem C1_counterexample :
    executeAndMonitor
      { emissionFactor := 400, cpuPowerCoefficient := 0.00008,
        memoryPowerCoefficient := 0.0000003, maxExecutionTime := 100,
        monitoringInterval := 50 }
      { spawn := SpawnOutcome.started,
        procEvent := some (300, ProcEvent.closed (some 0) none),
        monitorTrace := [{ elapsed := 40, sample := SampleResult.ok 25 1048576 }] } =
      some ({ success := false, error := some (ExecError.timedOut 100),
              executionTime := 100 },
            { monitorStarted := true, monitorAwaited := false,
              killSignalSent := true }) := by
  simp only [executeAndMonitor]
  rw [if_neg (by norm_num : ¬((300 : ℚ) < 100))]

/-- C1 (amended): the monitoring promise is awaited before executeAndMonitor
returns exactly in the natural-completion branch — the child close event with a
null signal winning the race against the deadline; in the signal-termination,
process-error and timeout branches the call returns at once without stopping or
awaiting the monitor, whose polling loop may outlive the call. -/
theorem C1_monitor_awaited_iff (cfg : AnalyzerConfigState) (inp : ExecInput)
    (res : ExecResult) (tr : ExecTrace)
    (h : executeAndMonitor cfg inp = some (res, tr)) :
    tr.monitorAwaited = true ↔
      (inp.spawn = SpawnOutcome.started ∧
        ∃ t code, inp.procEvent = some (t, ProcEvent.closed code none) ∧
          t < cfg.maxExecutionTime) := by
  cases hsp : inp.spawn with
  | threw e msg =>
      simp only [executeAndMonitor, hsp, Option.some.injEq, Prod.mk.injEq] at h
      obtain ⟨-, htr⟩ := h
      subst htr
      simp [hsp]
  | started =>
      cases hpe : inp.procEvent with
      | none =>
          simp only [executeAndMonitor, hsp, hpe, Option.some.injEq,
            Prod.mk.injEq] at h
          obtain ⟨-, htr⟩ := h
          subst htr
          simp [hsp, hpe]
      | some pe =>
          obtain ⟨t, ev⟩ := pe
          by_cases ht : t < cfg.maxExecutionTime
          · cases ev with
            | closed code sig =>
                cases sig with
                | some s =>
                    simp only [executeAndMonitor, hsp, hpe, if_pos ht,
                      Option.some.injEq, Prod.mk.injEq] at h
                    obtain ⟨-, htr⟩ := h
                    subst htr
                    simp [hsp, hpe]
                | none =>
                    cases hm : monitorRun cfg.maxExecutionTime inp.monitorTrace
                        MonState.init with
                    | none =>
                        simp only [executeAndMonitor, hsp, hpe, if_pos ht, hm] at h
                        exact absurd h (by simp)
                    | some pr =>
                        obtain ⟨r, st⟩ := pr
                        cases r with
                        | ok agg =>
                            simp only [executeAndMonitor, hsp, hpe, if_pos ht, hm,
                              Option.some.injEq, Prod.mk.injEq] at h
                            obtain ⟨-, htr⟩ := h
                            subst htr
                            exact iff_of_true rfl ⟨rfl, t, code, rfl, ht⟩
                        | error e =>
                            simp only [executeAndMonitor, hsp, hpe, if_pos ht, hm,
                              Option.some.injEq, Prod.mk.injEq] at h
                            obtain ⟨-, htr⟩ := h
                            subst htr
                            exact iff_of_true rfl ⟨rfl, t, code, rfl, ht⟩
            | errored msg =>
                simp only [executeAndMonitor, hsp, hpe, if_pos ht,
                  Option.some.injEq, Prod.mk.injEq] at h
                obtain ⟨-, htr⟩ := h
                subst htr
                simp only [Bool.false_eq_true, false_iff, not_and]
                rintro - ⟨t', code', hEq, hlt⟩
                simp at hEq
          · simp only [executeAndMonitor, hsp, hpe, if_neg ht,
              Option.some.injEq, Prod.mk.injEq] at h
            obtain ⟨-, htr⟩ := h
            subst htr
            simp only [Bool.false_eq_true, false_iff, not_and]
            rintro - ⟨t', code', hEq, hlt⟩
            simp only [Option.some.injEq, Prod.mk.injEq] at hEq
            exact ht (by rw [hEq.1]; exact hlt)

/-- C1 witness: a natural completion (close with null signal at 200 ms, deadline
60000 ms) does await the monitor. -/
theorem C1_witness :
    ({ monitorStarted := true, monitorAwaited := true,
       killSignalSent := false } : ExecTrace).monitorAwaited = true := by
  have h : executeAndMonitor
      { emissionFactor := 400, cpuPowerCoefficient := 0.00008,
        memoryPowerCoefficient := 0.0000003, maxExecutionTime := 60000,
        monitoringInterval := 50 }
      { spawn := SpawnOutcome.started,
        procEvent := some (200, ProcEvent.closed (some 0) none),
        monitorTrace := [{ elapsed := 50, sample := SampleResult.err "ESRCH" }] } =
      some ({ success := true, executionTime := 200,
              peakCpuUsage := some 0, peakMemoryUsage := some 0,
              exitCode := some (some 0),
              avgCpuUsage := some 0, avgMemoryUsage := some 0,
              samples := some 0, timeline := some [] },
            { monitorStarted := true, monitorAwaited := true,
              killSignalSent := false }) := by
    norm_num [executeAndMonitor, monitorRun, MonState.init, resolveAggregate,
      peakCpuBefore, peakMemBefore]
  exact (C1_monitor_awaited_iff _ _ _ _ h).mpr
    ⟨rfl, 200, some 0, rfl, by norm_num⟩

/-- C4 counterexample: when the spawn failure surfaces through the child error
event (as for a missing binary in Node), the monitor has already been started
by the time the error event fires — the returned trace records
monitorStarted = true, refuting that the monitor is never started. -/
theorem C4_counterexample :
    executeAndMonitor
      { emissionFactor := 400, cpuPowerCoefficient := 0.00008,
        memoryPowerCoefficient := 0.0000003, maxExecutionTime := 60000,
        monitoringInterval := 50 }
      { spawn := SpawnOutcome.started,
        procEvent := some (5, ProcEvent.errored "spawn node ENOENT"),
        monitorTrace := [] } =
      some ({ success := false,
              error := some (ExecError.processError "spawn node ENOENT"),
              executionTime := 5 },
            { monitorStarted := true, monitorAwaited := false,
              killSignalSent := false }) := by
  simp only [executeAndMonitor]
  rw [if_pos (by norm_num : (5 : ℚ) < 60000)]

/-- C4 (amended): only a synchronous spawn throw returns the failed-to-start
result with the monitor never started; when the spawn failure arrives through
the child error event, executeAndMonitor still returns the process-error result
immediately and without awaiting the monitor, but the monitor has already been
started. -/
theorem C4_spawn_failure_paths :
    (∀ (cfg : AnalyzerConfigState) (inp : ExecInput) (e : ℚ) (msg : String),
        inp.spawn = SpawnOutcome.threw e msg →
        executeAndMonitor cfg inp =
          some ({ success := false,
                  error := some (ExecError.failedToStart msg),
                  executionTime := e },
                { monitorStarted := false, monitorAwaited := false,
                  killSignalSent := false })) ∧
    (∀ (cfg : AnalyzerConfigState) (inp : ExecInput) (t : ℚ) (msg : String),
        inp.spawn = SpawnOutcome.started →
        inp.procEvent = some (t, ProcEvent.errored msg) →
        t < cfg.maxExecutionTime →
        executeAndMonitor cfg inp =
          some ({ success := false,
                  error := some (ExecError.processError msg),
                  executionTime := t },
                { monitorStarted := true, monitorAwaited := false,
                  killSignalSent := false })) := by
  constructor
  · intro cfg inp e msg hsp
    simp only [executeAndMonitor, hsp]
  · intro cfg inp t msg hsp hpe ht
    simp only [executeAndMonitor, hsp, hpe, if_pos ht]

/-- C4 witness: both amended branches at concrete inputs. -/
theorem C4_witness :
    executeAndMonitor
      { emissionFactor := 400, cpuPowerCoefficient := 0.00008,
        memoryPowerCoefficient := 0.0000003, maxExecutionTime := 60000,
        monitoringInterval := 50 }
      { spawn := SpawnOutcome.threw 1 "EACCES",
        procEvent := none, monitorTrace := [] } =
      some ({ success := false,
              error := some (ExecError.failedToStart "EACCES"),
              executionTime := 1 },
            { monitorStarted := false, monitorAwaited := false,
              killSignalSent := false }) ∧
    executeAndMonitor
      { emissionFactor := 400, cpuPowerCoefficient := 0.00008,
        memoryPowerCoefficient := 0.0000003, maxExecutionTime := 60000,
        monitoringInterval := 50 }
      { spawn := SpawnOutcome.started,
        procEvent := some (7, ProcEvent.errored "EAGAIN"),
        monitorTrace := [] } =
      some ({ success := false,
              error := some (ExecError.processError "EAGAIN"),
              executionTime := 7 },
            { monitorStarted := true, monitorAwaited := false,
              killSignalSent := false }) :=
  ⟨C4_spawn_failure_paths.1 _ _ 1 "EACCES" rfl,
   C4_spawn_failure_paths.2 _ _ 7 "EAGAIN" rfl rfl (by norm_num)⟩

/-- C5 counterexample: a successful close at 100 ms with a monitor that rejects
(sampling error EPERM before any sample) produces a result whose samples field
is 1 while its timeline is empty — the reported sample count differs from the
timeline length. -/
theorem C5_counterexample :
    executeAndMonitor
      { emissionFactor := 400, cpuPowerCoefficient := 0.00008,
        memoryPowerCoefficient := 0.0000003, maxExecutionTime := 60000,
        monitoringInterval := 50 }
      { spawn := SpawnOutcome.started,
        procEvent := some (100, ProcEvent.closed (some 0) none),
        monitorTrace := [{ elapsed := 50, sample := SampleResult.err "EPERM" }] } =
      some ({ success := true, executionTime := 100,
              peakCpuUsage := some 0, peakMemoryUsage := some 0,
              exitCode := some (some 0),
              avgCpuUsage := some 0, avgMemoryUsage := some 0,
              samples := some 1, timeline := some [] },
            { monitorStarted := true, monitorAwaited := true,
              killSignalSent := false }) ∧
    (1 : ℕ) ≠ ([] : List TimelinePoint).length := by
  have hm : monitorRun 60000
      [{ elapsed := 50, sample := SampleResult.err "EPERM" }] MonState.init =
      some (Except.error "EPERM", MonState.init) := by
    simp only [monitorRun]
    rw [if_neg (by norm_num : ¬((50 : ℚ) ≥ 60000)),
      if_neg (by decide : ¬("EPERM" = "ESRCH"))]
  constructor
  · simp only [executeAndMonitor]
    rw [if_pos (by norm_num : (100 : ℚ) < 60000), hm]
    norm_num [MonState.init, peakCpuBefore, peakMemBefore, peakCpuFinal, peakMemFinal]
  · simp

/-- C5 (amended): whenever the monitoring promise resolves (rather than
rejects), the execution result reports exactly the aggregate of the monitor,
and its sample count equals its timeline length; only the monitor-rejection
fallback reports samples = 1 with an empty timeline. -/
theorem C5_samples_match_timeline (cfg : AnalyzerConfigState) (inp : ExecInput)
    (res : ExecResult) (tr : ExecTrace) (agg : MonitorAggregate) (st : MonState)
    (hx : executeAndMonitor cfg inp = some (res, tr))
    (hs : res.success = true)
    (hm : monitorRun cfg.maxExecutionTime inp.monitorTrace MonState.init =
      some (Except.ok agg, st)) :
    res.samples = some agg.samples ∧ res.timeline = some agg.timeline ∧
      agg.samples = agg.timeline.length := by
  have hlen : agg.samples = agg.timeline.length := by
    obtain ⟨hinv, hagg⟩ :=
      monitorRun_ok_inv cfg.maxExecutionTime inp.monitorTrace MonState.init
        agg st monInv_init hm
    obtain ⟨-, -, h3, -⟩ := hinv
    subst hagg
    simpa [resolveAggregate] using h3
  cases hsp : inp.spawn with
  | threw e msg =>
      simp only [executeAndMonitor, hsp, Option.some.injEq, Prod.mk.injEq] at hx
      obtain ⟨hres, -⟩ := hx
      rw [← hres] at hs
      simp at hs
  | started =>
      cases hpe : inp.procEvent with
      | none =>
          simp only [executeAndMonitor, hsp, hpe, Option.some.injEq,
            Prod.mk.injEq] at hx
          obtain ⟨hres, -⟩ := hx
          rw [← hres] at hs
          simp at hs
      | some pe =>
          obtain ⟨t, ev⟩ := pe
          by_cases ht : t < cfg.maxExecutionTime
          · cases ev with
            | closed code sig =>
                cases sig with
                | some s =>
                    simp only [executeAndMonitor, hsp, hpe, if_pos ht,
                      Option.some.injEq, Prod.mk.injEq] at hx
                    obtain ⟨hres, -⟩ := hx
                    rw [← hres] at hs
                    simp at hs
                | none =>
                    simp only [executeAndMonitor, hsp, hpe, if_pos ht, hm,
                      Option.some.injEq, Prod.mk.injEq] at hx
                    obtain ⟨hres, -⟩ := hx
                    rw [← hres]
                    exact ⟨rfl, rfl, hlen⟩
            | errored msg =>
                simp only [executeAndMonitor, hsp, hpe, if_pos ht,
                  Option.some.injEq, Prod.mk.injEq] at hx
                obtain ⟨hres, -⟩ := hx
                rw [← hres] at hs
                simp at hs
          · simp only [executeAndMonitor, hsp, hpe, if_neg ht,
              Option.some.injEq, Prod.mk.injEq] at hx
            obtain ⟨hres, -⟩ := hx
            rw [← hres] at hs
            simp at hs

/-- C5 witness: the amended statement at the concrete natural-completion input
with two collected samples. -/
theorem C5_witness :
    (2 : ℕ) = ([{ timeSeconds := 1/100, cpu := 30, memoryMB := 1 },
                { timeSeconds := 1/50, cpu := 50, memoryMB := 1 }] :
        List TimelinePoint).length := by
  have hm : monitorRun 60000
      [{ elapsed := 10, sample := SampleResult.ok 30 (1024 * 1024) },
       { elapsed := 20, sample := SampleResult.ok 50 (1024 * 1024) },
       { elapsed := 30, sample := SampleResult.err "ESRCH" }] MonState.init =
      some (Except.ok
        { timeline := [{ timeSeconds := 1/100, cpu := 30, memoryMB := 1 },
                       { timeSeconds := 1/50, cpu := 50, memoryMB := 1 }],
          avgCpuUsage := 40, avgMemoryUsage := 1, samples := 2 },
        { timeline := [{ timeSeconds := 1/100, cpu := 30, memoryMB := 1 },
                       { timeSeconds := 1/50, cpu := 50, memoryMB := 1 }],
          totalCpu := 80, totalMemory := 2, samples := 2,
          onDataCalls := [{ elapsed := 10, cpu := 30, memoryMB := 1 },
                          { elapsed := 20, cpu := 50, memoryMB := 1 }] }) := by
    simp [monitorRun, MonState.init, resolveAggregate]
    norm_num
  have hx : executeAndMonitor
      { emissionFactor := 400, cpuPowerCoefficient := 0.00008,
        memoryPowerCoefficient := 0.0000003, maxExecutionTime := 60000,
        monitoringInterval := 50 }
      { spawn := SpawnOutcome.started,
        procEvent := some (200, ProcEvent.closed (some 0) none),
        monitorTrace :=
          [{ elapsed := 10, sample := SampleResult.ok 30 (1024 * 1024) },
           { elapsed := 20, sample := SampleResult.ok 50 (1024 * 1024) },
           { elapsed := 30, sample := SampleResult.err "ESRCH" }] } =
      some ({ success := true, executionTime := 200,
              peakCpuUsage := some 50, peakMemoryUsage := some 1,
              exitCode := some (some 0),
              avgCpuUsage := some 40, avgMemoryUsage := some 1,
              samples := some 2,
              timeline :=
                some [{ timeSeconds := 1/100, cpu := 30, memoryMB := 1 },
                      { timeSeconds := 1/50, cpu := 50, memoryMB := 1 }] },
            { monitorStarted := true, monitorAwaited := true,
              killSignalSent := false }) := by
    norm_num [executeAndMonitor, monitorRun, MonState.init, resolveAggregate,
      peakCpuBefore, peakMemBefore]
  have h := C5_samples_match_timeline _ _ _ _ _ _ hx rfl hm
  exact h.2.2

/-- C8 counterexample: a configuration with sampling period 100 ms and maximum
runtime 50 ms violates the request invariant (the period is not strictly less
than the maximum runtime), yet AnalyzerConfig.validate returns successfully
instead of throwing. -/
theorem C8_counterexample :
    ¬ specRequestInvariant
        { emissionFactor := 400, cpuPowerCoefficient := 0.00008,
          memoryPowerCoefficient := 0.0000003, maxExecutionTime := 50,
          monitoringInterval := 100 } ∧
    AnalyzerConfig.validate
        { emissionFactor := 400, cpuPowerCoefficient := 0.00008,
          memoryPowerCoefficient := 0.0000003, maxExecutionTime := 50,
          monitoringInterval := 100 } = Except.ok true := by
  constructor
  · intro h
    obtain ⟨-, h2, -⟩ := h
    norm_num at h2
  · simp only [AnalyzerConfig.validate]
    rw [if_neg (by norm_num : ¬((400 : ℚ) ≤ 0)),
      if_neg (by norm_num : ¬((50 : ℚ) ≤ 0)),
      if_neg (by norm_num : ¬((100 : ℚ) ≤ 0))]

/-- C8 (amended): AnalyzerConfig.validate succeeds exactly when the emission
factor, maximum runtime and sampling period are each positive; it does not
check that the sampling period is strictly less than the maximum runtime (and
it additionally constrains the emission factor, which is not part of the
request invariant). -/
theorem C8_validate_checks_positivity (c : AnalyzerConfigState) :
    AnalyzerConfig.validate c = Except.ok true ↔
      (0 < c.emissionFactor ∧ 0 < c.maxExecutionTime ∧
        0 < c.monitoringInterval) := by
  unfold AnalyzerConfig.validate
  split_ifs with h1 h2 h3
  · simp only [not_le] at *
    constructor
    · intro h; exact absurd h (by simp)
    · rintro ⟨ha, -, -⟩; exact absurd h1 (not_le.mpr ha)
  · constructor
    · intro h; exact absurd h (by simp)
    · rintro ⟨-, hb, -⟩; exact absurd h2 (not_le.mpr hb)
  · constructor
    · intro h; exact absurd h (by simp)
    · rintro ⟨-, -, hc⟩; exact absurd h3 (not_le.mpr hc)
  · simp only [not_le] at h1 h2 h3
    exact iff_of_true rfl ⟨h1, h2, h3⟩

/-- C8 witness: the amended characterization at the default configuration,
which validate accepts. -/
theorem C8_witness :
    AnalyzerConfig.validate
      { emissionFactor := 400, cpuPowerCoefficient := 0.00008,
        memoryPowerCoefficient := 0.0000003, maxExecutionTime := 60000,
        monitoringInterval := 50 } = Except.ok true :=
  (C8_validate_checks_positivity _).mpr (by norm_num)

/-- C9: terminating an already terminated or already exited process is a no-op
that raises no error (terminate is a total function and leaves an exited handle
unchanged; the guarded call sites skip the signal when the killed flag is
already set), and a promise settles with its first resolution — later resolve
calls never produce a second outcome. -/
theorem C9_terminate_idempotent_single_outcome (h : ProcHandle) :
    ProcHandle.terminate (ProcHandle.terminate h) = ProcHandle.terminate h ∧
    (∀ code, h.phase = ProcPhase.exited code → ProcHandle.terminate h = h) ∧
    (h.killed = true → guardedKill h = (h, false)) ∧
    (∀ (first : ExecResult) (later : List ExecResult),
      promiseSettle (first :: later) = some first) := by
  have hfold : ∀ (l : List ExecResult) (w : ExecResult),
      l.foldl (fun s v => match s with | none => some v | some u => some u)
        (some w) = some w := by
    intro l
    induction l with
    | nil => intro w; rfl
    | cons x xs ih => intro w; simpa using ih w
  refine ⟨?_, ?_, ?_, ?_⟩
  · unfold ProcHandle.terminate
    cases hp : h.phase <;> simp [hp]
  · intro code hp
    unfold ProcHandle.terminate
    rw [hp]
  · intro hk
    unfold guardedKill
    rw [hk]
    simp
  · intro first later
    unfold promiseSettle
    simpa using hfold later first

/-- C9 witness: a handle that has already exited with code 0 and whose killed
flag is set, plus one extra late resolve call. -/
theorem C9_witness :
    ProcHandle.terminate
        (ProcHandle.terminate { phase := ProcPhase.exited (some 0), killed := true }) =
      ProcHandle.terminate { phase := ProcPhase.exited (some 0), killed := true } ∧
    ProcHandle.terminate { phase := ProcPhase.exited (some 0), killed := true } =
      { phase := ProcPhase.exited (some 0), killed := true } ∧
    guardedKill { phase := ProcPhase.exited (some 0), killed := true } =
      ({ phase := ProcPhase.exited (some 0), killed := true }, false) ∧
    promiseSettle
        [{ success := false, executionTime := 100,
           error := some (ExecError.timedOut 100) },
         { success := true, executionTime := 120 }] =
      some { success := false, executionTime := 100,
             error := some (ExecError.timedOut 100) } := by
  obtain ⟨h1, h2, h3, h4⟩ :=
    C9_terminate_idempotent_single_outcome
      { phase := ProcPhase.exited (some 0), killed := true }
  exact ⟨h1, h2 (some 0) rfl, h3 rfl,
    h4 { success := false, executionTime := 100,
         error := some (ExecError.timedOut 100) }
       [{ success := true, executionTime := 120 }]⟩

/-- C10: for every input — any energy, execution-time, average-cpu and
peak-cpu rationals — the eco score strategy returns an overall score in
[0, 100] and each breakdown component (energy, time, cpu) in [0, 100]. -/
theorem C10_scores_within_bounds (energyKwh avgCpu peakCpu executionTime : ℚ) :
    0 ≤ (EcoScoreCalculationStrategy.calculate energyKwh avgCpu peakCpu executionTime).overall ∧
    (EcoScoreCalculationStrategy.calculate energyKwh avgCpu peakCpu executionTime).overall ≤ 100 ∧
    0 ≤ (EcoScoreCalculationStrategy.calculate energyKwh avgCpu peakCpu executionTime).energy ∧
    (EcoScoreCalculationStrategy.calculate energyKwh avgCpu peakCpu executionTime).energy ≤ 100 ∧
    0 ≤ (EcoScoreCalculationStrategy.calculate energyKwh avgCpu peakCpu executionTime).time ∧
    (EcoScoreCalculationStrategy.calculate energyKwh avgCpu peakCpu executionTime).time ≤ 100 ∧
    0 ≤ (EcoScoreCalculationStrategy.calculate energyKwh avgCpu peakCpu executionTime).cpu ∧
    (EcoScoreCalculationStrategy.calculate energyKwh avgCpu peakCpu executionTime).cpu ≤ 100 := by
  have he : 0 ≤ EcoScoreCalculationStrategy.calculateEnergyScore energyKwh ∧
      EcoScoreCalculationStrategy.calculateEnergyScore energyKwh ≤ 100 := by
    unfold EcoScoreCalculationStrategy.calculateEnergyScore
    split_ifs <;> norm_num
  have ht : 0 ≤ EcoScoreCalculationStrategy.calculateTimeScore executionTime ∧
      EcoScoreCalculationStrategy.calculateTimeScore executionTime ≤ 100 := by
    unfold EcoScoreCalculationStrategy.calculateTimeScore
    split_ifs <;> norm_num
  have hc : 0 ≤ EcoScoreCalculationStrategy.calculateCpuScore avgCpu peakCpu ∧
      EcoScoreCalculationStrategy.calculateCpuScore avgCpu peakCpu ≤ 100 := by
    unfold EcoScoreCalculationStrategy.calculateCpuScore
    exact ⟨le_max_left 0 _, max_le (by norm_num) (min_le_left 100 _)⟩
  unfold EcoScoreCalculationStrategy.calculate
  refine ⟨?_, ?_, he.1, he.2, ht.1, ht.2, hc.1, hc.2⟩
  · have := he.1; have := ht.1; have := hc.1
    nlinarith [he.1, ht.1, hc.1]
  · nlinarith [he.2, ht.2, hc.2]
